import Mathlib

/-!
Verification of the client-side state layer of the MovieDB web client.

This file gives a shallow embedding of the core state layer of the
repository and proves properties about it:

* the favorites store (reducers/favoritesReducer.ts): the reducer over
  the favorites mapping, its synchronous localStorage persistence, and
  the hydration of the initial state from the stored JSON;
* the search-term store (reducers/searchReducer.ts) and the composed
  mainReducer (contexts/index.tsx);
* the paginated fetch engines of HomePage and SearchPage (infinite
  scroll): each page component is embedded as an explicit event-driven
  state machine whose events are the intersection-observer trigger, the
  resolution (success or failure) of an in-flight HTTP request, and, for
  the search page, a change of the global search term.

JavaScript objects with integer-like keys enumerate (and serialize) their
keys in ascending numeric order, so the favorites mapping
Record<number, boolean> is embedded as an association list with strictly
sorted insertion.  localStorage is embedded as the content of its single
relevant cell, key "favorites", of type Option String.  JSON.parse of the
stored mapping is embedded by an executable parser for object literals of
the shape \x7b"123":true,...\x7d, which fails (as JSON.parse throws) on
anything else.
-/

/-- Lookup of a key in the favorites association list, mirroring the
JavaScript member access state.items[id] which yields the stored boolean
or undefined. -/
def favLookup (items : List (Nat × Bool)) (id : Nat) : Option Bool :=
  match items with
  | [] => none
  | (k, v) :: rest => if k = id then some v else favLookup rest id

/-- JavaScript boolean negation of a possibly-undefined boolean: the
source computes !state.items[id], where !undefined evaluates to true. -/
def jsNot (o : Option Bool) : Bool :=
  match o with
  | some b => !b
  | none => true

/-- Favorited flag of an id: the flag of an absent key is false
(the source reads the mapping with !!favorites[movie.id]). -/
def favFlag (items : List (Nat × Bool)) (id : Nat) : Bool :=
  (favLookup items id).getD false

/-- Insertion into the favorites association list keeping keys in strictly
ascending order, mirroring the JavaScript spread-and-override
\x7b...state.items, [id]: v\x7d on an object whose integer-like keys
enumerate in ascending numeric order. -/
def favSet (id : Nat) (b : Bool) : List (Nat × Bool) → List (Nat × Bool)
  | [] => [(id, b)]
  | (k, v) :: rest =>
    if id < k then (id, b) :: (k, v) :: rest
    else if id = k then (id, b) :: rest
    else (k, v) :: favSet id b rest

/-- Serialization of one favorites entry as JSON.stringify renders it:
a quoted decimal key, a colon, and a boolean literal. -/
def favEntryStr (e : Nat × Bool) : String :=
  "\"" ++ toString e.1 ++ "\":" ++ (if e.2 then "true" else "false")

/-- JSON.stringify of the favorites object: entries in key order (the
list is kept sorted), wrapped in braces. -/
def jsonStringifyFavs (l : List (Nat × Bool)) : String :=
  "\x7b" ++ String.intercalate "," (l.map favEntryStr) ++ "\x7d"

/-- Numeric value of a list of decimal digit characters. -/
def digitsToNat (ds : List Char) : Nat :=
  ds.foldl (fun n c => 10 * n + (c.toNat - 48)) 0

/-- Longest prefix of decimal digits of a character list, paired with the
remainder. -/
def spanDigits : List Char → List Char × List Char
  | [] => ([], [])
  | c :: cs =>
    if c.isDigit then
      let p := spanDigits cs
      (c :: p.1, p.2)
    else ([], c :: cs)

/-- Parser for a JSON boolean literal at the head of the input. -/
def parseBoolLit : List Char → Option (Bool × List Char)
  | 't' :: 'r' :: 'u' :: 'e' :: rest => some (true, rest)
  | 'f' :: 'a' :: 'l' :: 's' :: 'e' :: rest => some (false, rest)
  | _ => none

/-- Parser for one "key":bool member of the favorites object. -/
def parseEntry (cs : List Char) : Option ((Nat × Bool) × List Char) :=
  match cs with
  | '"' :: rest =>
    let p := spanDigits rest
    if p.1.isEmpty then none
    else
      match p.2 with
      | '"' :: ':' :: rest3 =>
        match parseBoolLit rest3 with
        | some (b, rest4) => some ((digitsToNat p.1, b), rest4)
        | _ => none
      | _ => none
  | _ => none

/-- Parser for a comma-separated sequence of members terminated by the
closing brace at the end of the input; fuel bounds the recursion. -/
def parseEntries : Nat → List Char → Option (List (Nat × Bool))
  | 0, _ => none
  | fuel + 1, cs =>
    match parseEntry cs with
    | none => none
    | some (e, rest) =>
      match rest with
      | ['\x7d'] => some [e]
      | ',' :: rest2 =>
        match parseEntries fuel rest2 with
        | some l => some (e :: l)
        | none => none
      | _ => none

/-- JSON.parse of a stored favorites value: accepts exactly the object
literals produced by jsonStringifyFavs and rejects (as JSON.parse throws
a SyntaxError) everything else. -/
def jsonParseFavs (s : String) : Except String (List (Nat × Bool)) :=
  match s.toList with
  | ['\x7b', '\x7d'] => Except.ok []
  | '\x7b' :: rest =>
    match parseEntries (s.length + 1) rest with
    | some l => Except.ok l
    | none => Except.error "SyntaxError: Unexpected token in JSON"
  | _ => Except.error "SyntaxError: Unexpected token in JSON"

/-- Shape of the favorites sub-state, from reducers/favoritesReducer.ts:
a mapping movieId -> favorited?. -/
structure FavoritesType where
  items : List (Nat × Bool)
  deriving DecidableEq, Repr

/-- Shape of the search sub-state, from reducers/searchReducer.ts. -/
structure SearchType where
  status : String
  deriving DecidableEq, Repr

/-- Dispatched action as the reducers consume it: a type tag (a string in
the source) and the payload fields the three known actions read
(payload.id for TOGGLE_FAVORITE, payload.status for CHANGE_SEARCH). -/
structure ReducerAction where
  type : String
  payloadId : Nat
  payloadStatus : String
  deriving DecidableEq, Repr

/-- Hydration of the favorites items at module load, from the initializer
of favoritesInitialState:
  const stored = localStorage.getItem("favorites");
  return stored ? JSON.parse(stored) : \x7b\x7d;
The argument is the content of the "favorites" cell (none when the key is
absent).  A missing key and the empty string are falsy and yield the
empty mapping; any other string goes through JSON.parse, whose failure
(there is no try/catch in the source) is the error case. -/
def favoritesHydrate (stored : Option String) : Except String (List (Nat × Bool)) :=
  match stored with
  | none => Except.ok []
  | some s => if s = "" then Except.ok [] else jsonParseFavs s

/-- Initial favorites state produced from the storage content. -/
def favoritesInitialState (stored : Option String) : Except String FavoritesType :=
  (favoritesHydrate stored).map FavoritesType.mk

/-- Favorites reducer, from reducers/favoritesReducer.ts.  The second
argument and second component thread the "favorites" localStorage cell:
TOGGLE_FAVORITE writes JSON.stringify of the updated mapping before
returning, CLEAR_FAVORITES removes the key, and the default case returns
the state with no storage write. -/
def favoritesReducer (state : FavoritesType) (store : Option String)
    (action : ReducerAction) : FavoritesType × Option String :=
  if action.type = "TOGGLE_FAVORITE" then
    let id := action.payloadId
    let updated := favSet id (jsNot (favLookup state.items id)) state.items
    (⟨updated⟩, some (jsonStringifyFavs updated))
  else if action.type = "CLEAR_FAVORITES" then
    (⟨[]⟩, none)
  else
    (state, store)

/-- Search reducer, from reducers/searchReducer.ts. -/
def searchReducer (state : SearchType) (action : ReducerAction) : SearchType :=
  if action.type = "CHANGE_SEARCH" then { state with status := action.payloadStatus }
  else state

/-- Composed global state, from contexts/index.tsx (initialStateType). -/
structure initialStateType where
  search : SearchType
  favorites : FavoritesType
  deriving DecidableEq, Repr

/-- Composed reducer, from contexts/index.tsx: every dispatch recomputes
both sub-states; the storage cell is threaded through the favorites
reducer, the only one with a persistence side effect. -/
def mainReducer (state : initialStateType) (store : Option String)
    (action : ReducerAction) : initialStateType × Option String :=
  let fav := favoritesReducer state.favorites store action
  (⟨searchReducer state.search action, fav.1⟩, fav.2)

/-- One TOGGLE_FAVORITE dispatch through the favorites reducer. -/
def favToggle (st : FavoritesType) (store : Option String) (id : Nat) :
    FavoritesType × Option String :=
  favoritesReducer st store ⟨"TOGGLE_FAVORITE", id, ""⟩

/-- n successive TOGGLE_FAVORITE dispatches for the same id, each one
consuming the state and storage produced by the previous one. -/
def favToggleIter (n : Nat) (st : FavoritesType) (store : Option String)
    (id : Nat) : FavoritesType × Option String :=
  match n with
  | 0 => (st, store)
  | m + 1 =>
    let r := favToggleIter m st store id
    favToggle r.1 r.2 id

/-- Movie item as the feed logic consumes it: the merge step reads only
the id (the dedup predicate compares p.id === m.id); the title stands for
the rest of the payload carried along unchanged. -/
structure Movie where
  id : Nat
  title : String
  deriving DecidableEq, Repr

/-- Body of a provider page response, from res.data: the results array
and the optional total_pages / total_results counters. -/
structure TMDBPage where
  results : List Movie
  total_pages : Option Nat
  total_results : Option Nat
  deriving DecidableEq, Repr

/-- Merge step shared by both pages, from the setMovies updater:
  [...prev, ...results.filter((m) => !prev.some((p) => p.id === m.id))]
appends the incoming results, dropping each incoming element whose id
already occurs in the previous items. -/
def mergeMovies (prev results : List Movie) : List Movie :=
  prev ++ results.filter (fun m => !(prev.any (fun p => p.id == m.id)))

/-- JavaScript truthiness of a number | null value. -/
def jsTruthyNum (o : Option Nat) : Bool :=
  match o with
  | some n => n != 0
  | none => false

/-- State of the HomePage component (src/pages/HomePage), one field per
useState hook, plus the list of in-flight fetchPopularMovies requests
(their page numbers, in issue order) and the log of every page number
ever passed to fetchPopularMovies. -/
structure HomeState where
  movies : List Movie
  page : Nat
  totalPages : Option Nat
  loading : Bool
  loadingMore : Bool
  error : Option String
  pending : List Nat
  fetchLog : List Nat
  deriving DecidableEq, Repr

/-- Start of loadMovies(pageToLoad): sets the loading flag for the first
page and the loadingMore flag for later ones, then issues the HTTP
request, which becomes pending until its resolve event. -/
def homeStartLoad (p : Nat) (s : HomeState) : HomeState :=
  if p = 1 then
    { s with loading := true, pending := s.pending ++ [p],
             fetchLog := s.fetchLog ++ [p] }
  else
    { s with loadingMore := true, pending := s.pending ++ [p],
             fetchLog := s.fetchLog ++ [p] }

/-- Whether the intersection-observer sentinel element is rendered: the
component returns early while loading and on error, and the main render
mounts the sentinel only under page < (totalPages ?? 0). -/
def homeSentinel (s : HomeState) : Bool :=
  !s.loading && s.error.isNone && decide (s.page < s.totalPages.getD 0)

/-- Whether an intersection trigger can fire: the observer effect returns
early while loadingMore and once totalPages && page >= totalPages, and it
observes only an existing sentinel element. -/
def homeObserverActive (s : HomeState) : Bool :=
  !s.loadingMore
    && !(jsTruthyNum s.totalPages && decide (s.totalPages.getD 0 ≤ s.page))
    && homeSentinel s

/-- Page-change effect of HomePage: after page changes it fires
loadMovies(page) under page > 1 && (!totalPages || page <= totalPages). -/
def homePageEffect (s1 : HomeState) : HomeState :=
  if s1.page > 1
      && (!(jsTruthyNum s1.totalPages) || decide (s1.page ≤ s1.totalPages.getD 0)) then
    homeStartLoad s1.page s1
  else s1

/-- Sentinel-intersection event: the observer callback runs
setPage(prev => prev + 1), and the page-change effect then runs on the
new state. -/
def homeIntersect (s : HomeState) : HomeState :=
  if homeObserverActive s then homePageEffect { s with page := s.page + 1 }
  else s

/-- Successful resolution of the i-th pending request: stores total_pages
when truthy, merges the results with the dedup filter, and the finally
block clears both loading flags. -/
def homeResolveOk (i : Nat) (resp : TMDBPage) (s : HomeState) : HomeState :=
  if i < s.pending.length then
    { s with
      totalPages := if jsTruthyNum resp.total_pages then resp.total_pages else s.totalPages,
      movies := mergeMovies s.movies resp.results,
      loading := false, loadingMore := false,
      pending := s.pending.eraseIdx i }
  else s

/-- Failed resolution (transport failure or non-2xx status, both of which
reject the axios promise) of the i-th pending request: the catch block
sets the error message and the finally block clears both loading flags;
movies, page and totalPages are not touched. -/
def homeResolveErr (i : Nat) (s : HomeState) : HomeState :=
  if i < s.pending.length then
    { s with
      error := some "Nao foi possivel carregar os filmes populares.",
      loading := false, loadingMore := false,
      pending := s.pending.eraseIdx i }
  else s

/-- Events of the HomePage machine after mount: a sentinel intersection,
or the resolution (success or failure) of the i-th in-flight request. -/
inductive HomeEvent where
  | intersect : HomeEvent
  | resolveOk : Nat → TMDBPage → HomeEvent
  | resolveErr : Nat → HomeEvent
  deriving DecidableEq, Repr

/-- One run-to-completion step of the HomePage machine. -/
def homeStep (s : HomeState) : HomeEvent → HomeState
  | HomeEvent.intersect => homeIntersect s
  | HomeEvent.resolveOk i resp => homeResolveOk i resp s
  | HomeEvent.resolveErr i => homeResolveErr i s

/-- Hook initial values of HomePage: empty movies, page 1, unknown
totalPages, loading true, before any effect has run. -/
def homeInit0 : HomeState :=
  ⟨[], 1, none, true, false, none, [], []⟩

/-- HomePage state right after mount: the mount effect runs
loadMovies(1). -/
def homeInit : HomeState :=
  homeStartLoad 1 homeInit0

/-- HomePage state after a trace of post-mount events. -/
def homeRun (tr : List HomeEvent) : HomeState :=
  tr.foldl homeStep homeInit

/-- State of the SearchPage component (src/pages/SearchPage), one field
per useState hook plus the global search term it reads from context; the
pending list records each in-flight fetchSearchMovie call as the (term,
page) pair it was issued with, and fetchLog logs every such call. -/
structure SearchFeedState where
  movies : List Movie
  page : Nat
  totalPages : Option Nat
  totalResults : Option Nat
  loading : Bool
  loadingMore : Bool
  error : Option String
  search : String
  pending : List (String × Nat)
  fetchLog : List (String × Nat)
  deriving DecidableEq, Repr

/-- Start of loadSearchResults(pageToLoad): sets the appropriate loading
flag and issues fetchSearchMovie(search, pageToLoad) with the current
search term. -/
def searchStartLoad (p : Nat) (s : SearchFeedState) : SearchFeedState :=
  if p = 1 then
    { s with loading := true, pending := s.pending ++ [(s.search, p)],
             fetchLog := s.fetchLog ++ [(s.search, p)] }
  else
    { s with loadingMore := true, pending := s.pending ++ [(s.search, p)],
             fetchLog := s.fetchLog ++ [(s.search, p)] }

/-- Whether the sentinel element is rendered on SearchPage: the component
returns early while loading, on error, on an empty search term and on an
empty result list, and the main render mounts the sentinel only under
page < (totalPages ?? 0). -/
def searchSentinel (s : SearchFeedState) : Bool :=
  !s.loading && s.error.isNone && s.search != "" && !s.movies.isEmpty
    && decide (s.page < s.totalPages.getD 0)

/-- Whether an intersection trigger can fire on SearchPage, with the same
observer-effect guards as HomePage. -/
def searchObserverActive (s : SearchFeedState) : Bool :=
  !s.loadingMore
    && !(jsTruthyNum s.totalPages && decide (s.totalPages.getD 0 ≤ s.page))
    && searchSentinel s

/-- Page-change effect of SearchPage: after page changes it fires
loadSearchResults(page) under page > 1 && (!totalPages || page <=
totalPages). -/
def searchPageEffect (s1 : SearchFeedState) : SearchFeedState :=
  if s1.page > 1
      && (!(jsTruthyNum s1.totalPages) || decide (s1.page ≤ s1.totalPages.getD 0)) then
    searchStartLoad s1.page s1
  else s1

/-- Sentinel-intersection event on SearchPage. -/
def searchIntersect (s : SearchFeedState) : SearchFeedState :=
  if searchObserverActive s then searchPageEffect { s with page := s.page + 1 }
  else s

/-- Change of the global search term: the effect on [search] returns
early on a falsy term and otherwise runs resetAndSearch, which clears
movies, resets page to 1, clears totalPages and totalResults, then runs
loadSearchResults(1).  No in-flight request is cancelled or tagged. -/
def searchChange (term : String) (s : SearchFeedState) : SearchFeedState :=
  let s0 := { s with search := term }
  if term = "" then s0
  else
    searchStartLoad 1
      { s0 with movies := [], page := 1, totalPages := none, totalResults := none }

/-- Successful resolution of the i-th pending search request: stores
total_pages ?? 1 and total_results ?? 0, merges the results with the
dedup filter against the current movies, and clears both loading flags.
The handler does not compare the request term with the current one. -/
def searchResolveOk (i : Nat) (resp : TMDBPage) (s : SearchFeedState) : SearchFeedState :=
  if i < s.pending.length then
    { s with
      totalPages := some (resp.total_pages.getD 1),
      totalResults := some (resp.total_results.getD 0),
      movies := mergeMovies s.movies resp.results,
      loading := false, loadingMore := false,
      pending := s.pending.eraseIdx i }
  else s

/-- Failed resolution of the i-th pending search request. -/
def searchResolveErr (i : Nat) (s : SearchFeedState) : SearchFeedState :=
  if i < s.pending.length then
    { s with
      error := some "Nao foi possivel carregar os resultados da pesquisa.",
      loading := false, loadingMore := false,
      pending := s.pending.eraseIdx i }
  else s

/-- Events of the SearchPage machine: a change of the effective search
term, a sentinel intersection, or the resolution of the i-th in-flight
request. -/
inductive SearchEvent where
  | change : String → SearchEvent
  | intersect : SearchEvent
  | resolveOk : Nat → TMDBPage → SearchEvent
  | resolveErr : Nat → SearchEvent
  deriving DecidableEq, Repr

/-- One run-to-completion step of the SearchPage machine. -/
def searchStep (s : SearchFeedState) : SearchEvent → SearchFeedState
  | SearchEvent.change term => searchChange term s
  | SearchEvent.intersect => searchIntersect s
  | SearchEvent.resolveOk i resp => searchResolveOk i resp s
  | SearchEvent.resolveErr i => searchResolveErr i s

/-- Hook initial values of SearchPage: empty movies, page 1, unknown
bounds, empty search term, loading false (SearchPage starts idle until a
term arrives). -/
def searchInit : SearchFeedState :=
  ⟨[], 1, none, none, false, false, none, "", [], []⟩

/-- SearchPage state after a trace of events. -/
def searchRun (tr : List SearchEvent) : SearchFeedState :=
  tr.foldl searchStep searchInit

/-- Single-flight invariant of the HomePage machine: at most one request
is pending, and while one is pending one of the two loading flags is
set (which keeps the intersection observer detached). -/
def homeInv (s : HomeState) : Prop :=
  s.pending.length ≤ 1
    ∧ (s.pending ≠ [] → s.loading = true ∨ s.loadingMore = true)

lemma favLookup_favSet_self (id : Nat) (b : Bool) (l : List (Nat × Bool)) :
    favLookup (favSet id b l) id = some b := by
  induction l with
  | nil => simp [favSet, favLookup]
  | cons hd tl ih =>
    obtain ⟨k, v⟩ := hd
    by_cases h1 : id < k
    · simp [favSet, favLookup, h1]
    · by_cases h2 : id = k
      · simp [favSet, favLookup, h1, h2]
      · have hk : ¬ k = id := fun h => h2 h.symm
        simp [favSet, favLookup, h1, h2, hk, ih]

lemma favLookup_favSet_other (id j : Nat) (b : Bool) (l : List (Nat × Bool))
    (hj : j ≠ id) : favLookup (favSet id b l) j = favLookup l j := by
  have hij : ¬ id = j := fun h => hj h.symm
  induction l with
  | nil => simp [favSet, favLookup, hij]
  | cons hd tl ih =>
    obtain ⟨k, v⟩ := hd
    by_cases h1 : id < k
    · simp [favSet, favLookup, h1, hij]
    · by_cases h2 : id = k
      · subst h2
        simp [favSet, favLookup, h1, hij]
      · simp [favSet, favLookup, h1, h2, ih]

lemma favLookup_some_mem (l : List (Nat × Bool)) (id : Nat) (b : Bool)
    (h : favLookup l id = some b) : (id, b) ∈ l := by
  induction l with
  | nil => simp [favLookup] at h
  | cons hd tl ih =>
    obtain ⟨k, v⟩ := hd
    by_cases hk : k = id
    · subst hk
      simp [favLookup] at h
      simp [h]
    · simp [favLookup, hk] at h
      simp [ih h]

lemma favToggle_eq (st : FavoritesType) (store : Option String) (id : Nat) :
    favToggle st store id
      = (⟨favSet id (jsNot (favLookup st.items id)) st.items⟩,
         some (jsonStringifyFavs (favSet id (jsNot (favLookup st.items id)) st.items))) := rfl

lemma favToggle_flag (st : FavoritesType) (store : Option String) (id : Nat) :
    favFlag (favToggle st store id).1.items id = !(favFlag st.items id) := by
  rw [favToggle_eq]
  show favFlag (favSet id (jsNot (favLookup st.items id)) st.items) id = _
  unfold favFlag
  rw [favLookup_favSet_self]
  cases h : favLookup st.items id <;> simp [jsNot, h]

/-- C4.  Dispatching TOGGLE_FAVORITE(id) flips the favorited flag of id
(absent to true, true to false, false to true), leaves every other key
unchanged, returns the new state, and the returned storage cell holds the
JSON serialization of the full resulting mapping (the write happens
inside the same synchronous reducer step).  Iterating the dispatch an
even number of times restores the original flag and an odd number of
times inverts it.  Toggling 603 on the empty mapping yields the mapping
with the single entry 603 -> true and the stored JSON "\x7b"603":true\x7d". -/
theorem toggle_favorite_spec :
    (∀ (st : FavoritesType) (store : Option String) (id : Nat),
        favFlag (favToggle st store id).1.items id = !(favFlag st.items id)
        ∧ (∀ j, j ≠ id →
            favLookup (favToggle st store id).1.items j = favLookup st.items j)
        ∧ (favToggle st store id).2
            = some (jsonStringifyFavs (favToggle st store id).1.items))
    ∧ (∀ (st : FavoritesType) (store : Option String) (id n : Nat),
        favFlag (favToggleIter n st store id).1.items id
          = if n % 2 = 0 then favFlag st.items id else !(favFlag st.items id))
    ∧ favToggle ⟨[]⟩ none 603 = (⟨[(603, true)]⟩, some "\x7b\"603\":true\x7d") := by
  refine ⟨?_, ?_, by decide⟩
  · intro st store id
    refine ⟨favToggle_flag st store id, ?_, ?_⟩
    · intro j hj
      rw [favToggle_eq]
      exact favLookup_favSet_other id j _ st.items hj
    · rw [favToggle_eq]
  · intro st store id n
    induction n with
    | zero => simp [favToggleIter]
    | succ m ih =>
      have hstep : favToggleIter (m + 1) st store id
          = favToggle (favToggleIter m st store id).1 (favToggleIter m st store id).2 id := rfl
      rw [hstep, favToggle_flag, ih]
      by_cases hm : m % 2 = 0
      · have h1 : ¬ (m + 1) % 2 = 0 := by omega
        rw [if_pos hm, if_neg h1]
      · have h0 : (m + 1) % 2 = 0 := by omega
        rw [if_neg hm, if_pos h0, Bool.not_not]

/-- Witness for C4 at concrete inputs: toggling 7 on the mapping
7 -> true flips its flag, leaves key 9 unchanged, and four successive
toggles restore the original flag. -/
theorem toggle_favorite_spec_witness :
    favFlag (favToggle ⟨[(7, true)]⟩ none 7).1.items 7 = !(favFlag [(7, true)] 7)
    ∧ favLookup (favToggle ⟨[(7, true)]⟩ none 7).1.items 9 = favLookup [(7, true)] 9
    ∧ favFlag (favToggleIter 4 ⟨[(7, true)]⟩ none 7).1.items 7
        = if 4 % 2 = 0 then favFlag [(7, true)] 7 else !(favFlag [(7, true)] 7) :=
  ⟨(toggle_favorite_spec.1 ⟨[(7, true)]⟩ none 7).1,
   (toggle_favorite_spec.1 ⟨[(7, true)]⟩ none 7).2.1 9 (by decide),
   toggle_favorite_spec.2.1 ⟨[(7, true)]⟩ none 7 4⟩

/-- C10.  Toggling an id whose flag is true keeps the key in the mapping
with the explicit value false (the spread-and-override never deletes a
key), and the serialized mapping written to storage therefore still
carries the entry; more generally, every key present before a toggle is
still present after it, whatever its id. -/
theorem toggle_keeps_false_entry :
    (∀ (st : FavoritesType) (store : Option String) (id : Nat),
        favLookup st.items id = some true →
          favLookup (favToggle st store id).1.items id = some false
          ∧ (id, false) ∈ (favToggle st store id).1.items
          ∧ (favToggle st store id).2
              = some (jsonStringifyFavs (favToggle st store id).1.items))
    ∧ (∀ (st : FavoritesType) (store : Option String) (id j : Nat) (b : Bool),
        favLookup st.items j = some b →
          ∃ c, favLookup (favToggle st store id).1.items j = some c) := by
  constructor
  · intro st store id h
    have hl : favLookup (favToggle st store id).1.items id = some false := by
      rw [favToggle_eq]
      show favLookup (favSet id (jsNot (favLookup st.items id)) st.items) id = some false
      rw [h, favLookup_favSet_self]
      simp [jsNot]
    exact ⟨hl, favLookup_some_mem _ _ _ hl, by rw [favToggle_eq]⟩
  · intro st store id j b h
    by_cases hj : j = id
    · subst hj
      refine ⟨jsNot (favLookup st.items j), ?_⟩
      rw [favToggle_eq]
      exact favLookup_favSet_self j _ st.items
    · refine ⟨b, ?_⟩
      rw [favToggle_eq]
      show favLookup (favSet id (jsNot (favLookup st.items id)) st.items) j = some b
      rw [favLookup_favSet_other id j _ st.items hj, h]

/-- Witness for C10 at concrete inputs: toggling 603 from true lands on
an explicit false entry, and key 603 survives a toggle of key 5. -/
theorem toggle_keeps_false_entry_witness :
    favLookup (favToggle ⟨[(603, true)]⟩ (some "\x7b\"603\":true\x7d") 603).1.items 603
        = some false
    ∧ ∃ c, favLookup (favToggle ⟨[(603, true)]⟩ none 5).1.items 603 = some c :=
  ⟨(toggle_keeps_false_entry.1 ⟨[(603, true)]⟩ (some "\x7b\"603\":true\x7d") 603
      (by decide)).1,
   toggle_keeps_false_entry.2 ⟨[(603, true)]⟩ none 5 603 true (by decide)⟩

/-- C7.  Dispatching CLEAR_FAVORITES empties the in-memory mapping and
removes the persistent "favorites" key entirely (the storage cell becomes
absent, not an empty object), so hydrating from the resulting storage, as
a reload would, yields the empty mapping. -/
theorem clear_favorites_removes_key :
    ∀ (st : FavoritesType) (store : Option String) (pid : Nat) (ps : String),
      (favoritesReducer st store ⟨"CLEAR_FAVORITES", pid, ps⟩).1.items = []
      ∧ (favoritesReducer st store ⟨"CLEAR_FAVORITES", pid, ps⟩).2 = none
      ∧ favoritesHydrate (favoritesReducer st store ⟨"CLEAR_FAVORITES", pid, ps⟩).2
          = Except.ok [] :=
  fun _ _ _ _ => ⟨rfl, rfl, rfl⟩

/-- C9.  Dispatching an action whose kind is none of CHANGE_SEARCH,
TOGGLE_FAVORITE and CLEAR_FAVORITES returns both sub-states unchanged and
leaves the storage cell untouched; the reducers are total, so no error is
raised. -/
theorem unknown_action_noop :
    ∀ (st : initialStateType) (store : Option String) (a : ReducerAction),
      a.type ≠ "CHANGE_SEARCH" → a.type ≠ "TOGGLE_FAVORITE" →
      a.type ≠ "CLEAR_FAVORITES" → mainReducer st store a = (st, store) := by
  intro st store a h1 h2 h3
  simp only [mainReducer, favoritesReducer, searchReducer, if_neg h1, if_neg h2, if_neg h3]

/-- Witness for C9: a dispatch of the unknown kind FUTURE_ACTION is a
structural no-op on a concrete state and storage cell. -/
theorem unknown_action_noop_witness :
    mainReducer ⟨⟨"batman"⟩, ⟨[(3, true)]⟩⟩ (some "\x7b\"3\":true\x7d")
        ⟨"FUTURE_ACTION", 0, ""⟩
      = (⟨⟨"batman"⟩, ⟨[(3, true)]⟩⟩, some "\x7b\"3\":true\x7d") :=
  unknown_action_noop ⟨⟨"batman"⟩, ⟨[(3, true)]⟩⟩ (some "\x7b\"3\":true\x7d")
    ⟨"FUTURE_ACTION", 0, ""⟩ (by decide) (by decide) (by decide)

/-- C2 (divergence).  Hydration handles an absent key, an empty string
and well-formed JSON, but the source parses a present non-empty value
with a bare JSON.parse and no try/catch, so a malformed stored value such
as "oops" makes hydration fail with a parse error instead of returning
the empty mapping. -/
theorem hydrate_malformed_json_throws :
    favoritesHydrate none = Except.ok []
    ∧ favoritesHydrate (some "") = Except.ok []
    ∧ favoritesHydrate (some (jsonStringifyFavs [(603, true)])) = Except.ok [(603, true)]
    ∧ favoritesHydrate (some "oops")
        = Except.error "SyntaxError: Unexpected token in JSON"
    ∧ favoritesInitialState (some "oops")
        = Except.error "SyntaxError: Unexpected token in JSON" :=
  ⟨rfl, rfl, rfl, rfl, rfl⟩

lemma homeStartLoad_pending (p : Nat) (s : HomeState) :
    (homeStartLoad p s).pending = s.pending ++ [p] := by
  unfold homeStartLoad
  by_cases hp : p = 1 <;> simp [hp]

lemma homeStartLoad_fetchLog (p : Nat) (s : HomeState) :
    (homeStartLoad p s).fetchLog = s.fetchLog ++ [p] := by
  unfold homeStartLoad
  by_cases hp : p = 1 <;> simp [hp]

lemma homeStartLoad_flag (p : Nat) (s : HomeState) :
    (homeStartLoad p s).loading = true ∨ (homeStartLoad p s).loadingMore = true := by
  unfold homeStartLoad
  by_cases hp : p = 1 <;> simp [hp]

lemma homeObserverActive_startLoad (p : Nat) (s : HomeState) :
    homeObserverActive (homeStartLoad p s) = false := by
  unfold homeStartLoad homeObserverActive homeSentinel
  by_cases hp : p = 1 <;> simp [hp]

lemma homeObserverActive_flags (s : HomeState) (h : homeObserverActive s = true) :
    s.loadingMore = false ∧ s.loading = false ∧ s.error = none
      ∧ s.page < s.totalPages.getD 0 := by
  simp only [homeObserverActive, homeSentinel, Bool.and_eq_true, Bool.not_eq_true',
    decide_eq_true_eq, Option.isNone_iff_eq_none] at h
  refine ⟨?_, ?_, ?_, ?_⟩ <;> tauto

lemma homeIntersect_not_active (s : HomeState) (h : homeObserverActive s = false) :
    homeIntersect s = s := by
  simp [homeIntersect, h]

lemma homeIntersect_active (s : HomeState) (h : homeObserverActive s = true) :
    homeIntersect s = homePageEffect { s with page := s.page + 1 } := by
  simp [homeIntersect, h]

lemma homePageEffect_cases (s1 : HomeState) :
    homePageEffect s1 = homeStartLoad s1.page s1 ∨ homePageEffect s1 = s1 := by
  unfold homePageEffect
  by_cases hc : (s1.page > 1
      && (!(jsTruthyNum s1.totalPages) || decide (s1.page ≤ s1.totalPages.getD 0))) = true
  · simp [hc]
  · simp [hc]

lemma eraseIdx_of_short {α : Type} (l : List α) (i : Nat) (hl : l.length ≤ 1)
    (hi : i < l.length) : l.eraseIdx i = [] := by
  cases l with
  | nil => simp at hi
  | cons a t =>
    cases t with
    | nil =>
      have h0 : i = 0 := Nat.lt_one_iff.mp (by simpa using hi)
      subst h0
      rfl
    | cons b t2 => simp at hl

lemma homeInv_step (s : HomeState) (e : HomeEvent) (hs : homeInv s) :
    homeInv (homeStep s e) := by
  obtain ⟨hlen, hflag⟩ := hs
  cases e with
  | intersect =>
    show homeInv (homeIntersect s)
    by_cases hA : homeObserverActive s = true
    · obtain ⟨hlm, hld, _, _⟩ := homeObserverActive_flags s hA
      have hpend : s.pending = [] := by
        by_contra hne
        rcases hflag hne with h | h
        · rw [hld] at h; exact Bool.false_ne_true h
        · rw [hlm] at h; exact Bool.false_ne_true h
      rw [homeIntersect_active s hA]
      rcases homePageEffect_cases { s with page := s.page + 1 } with hcase | hcase
      · rw [hcase]
        constructor
        · rw [homeStartLoad_pending]
          simp [hpend]
        · intro _
          exact homeStartLoad_flag _ _
      · rw [hcase]
        constructor
        · simpa using hlen
        · intro hne
          exact (hne (by simpa using hpend)).elim
    · rw [homeIntersect_not_active s (by simpa using hA)]
      exact ⟨hlen, hflag⟩
  | resolveOk i resp =>
    show homeInv (homeResolveOk i resp s)
    unfold homeResolveOk
    by_cases hi : i < s.pending.length
    · simp only [hi, if_true]
      have he : s.pending.eraseIdx i = [] := eraseIdx_of_short _ _ hlen hi
      constructor
      · simp [he]
      · intro hne
        exact (hne (by simpa using he)).elim
    · simp only [hi, if_false]
      exact ⟨hlen, hflag⟩
  | resolveErr i =>
    show homeInv (homeResolveErr i s)
    unfold homeResolveErr
    by_cases hi : i < s.pending.length
    · simp only [hi, if_true]
      have he : s.pending.eraseIdx i = [] := eraseIdx_of_short _ _ hlen hi
      constructor
      · simp [he]
      · intro hne
        exact (hne (by simpa using he)).elim
    · simp only [hi, if_false]
      exact ⟨hlen, hflag⟩

lemma homeInv_foldl (tr : List HomeEvent) (s : HomeState) (hs : homeInv s) :
    homeInv (tr.foldl homeStep s) := by
  induction tr generalizing s with
  | nil => simpa
  | cons e rest ih => exact ih _ (homeInv_step s e hs)

lemma homeInv_init : homeInv homeInit := by
  refine ⟨?_, fun _ => Or.inl ?_⟩ <;> simp [homeInit, homeInit0, homeStartLoad]

lemma homeInv_run (tr : List HomeEvent) : homeInv (homeRun tr) :=
  homeInv_foldl tr homeInit homeInv_init

lemma searchStartLoad_fetchLog (p : Nat) (s : SearchFeedState) :
    (searchStartLoad p s).fetchLog = s.fetchLog ++ [(s.search, p)] := by
  unfold searchStartLoad
  by_cases hp : p = 1 <;> simp [hp]

lemma searchObserverActive_startLoad (p : Nat) (s : SearchFeedState) :
    searchObserverActive (searchStartLoad p s) = false := by
  unfold searchStartLoad searchObserverActive searchSentinel
  by_cases hp : p = 1 <;> simp [hp]

lemma searchIntersect_not_active (s : SearchFeedState)
    (h : searchObserverActive s = false) : searchIntersect s = s := by
  simp [searchIntersect, h]

lemma searchIntersect_active (s : SearchFeedState)
    (h : searchObserverActive s = true) :
    searchIntersect s = searchPageEffect { s with page := s.page + 1 } := by
  simp [searchIntersect, h]

lemma searchPageEffect_cases (s1 : SearchFeedState) :
    searchPageEffect s1 = searchStartLoad s1.page s1 ∨ searchPageEffect s1 = s1 := by
  unfold searchPageEffect
  by_cases hc : (s1.page > 1
      && (!(jsTruthyNum s1.totalPages) || decide (s1.page ≤ s1.totalPages.getD 0))) = true
  · simp [hc]
  · simp [hc]

lemma home_drop (s : HomeState) (h : (homeIntersect s).fetchLog ≠ s.fetchLog) :
    (homeIntersect s).fetchLog = s.fetchLog ++ [s.page + 1]
      ∧ homeIntersect (homeIntersect s) = homeIntersect s := by
  by_cases hA : homeObserverActive s = true
  · rw [homeIntersect_active s hA] at h ⊢
    rcases homePageEffect_cases { s with page := s.page + 1 } with hcase | hcase
    · rw [hcase] at h ⊢
      constructor
      · rw [homeStartLoad_fetchLog]
      · exact homeIntersect_not_active _ (homeObserverActive_startLoad _ _)
    · rw [hcase] at h
      exact (h rfl).elim
  · rw [homeIntersect_not_active s (by simpa using hA)] at h
    exact (h rfl).elim

lemma search_drop (s : SearchFeedState)
    (h : (searchIntersect s).fetchLog ≠ s.fetchLog) :
    (searchIntersect s).fetchLog = s.fetchLog ++ [(s.search, s.page + 1)]
      ∧ searchIntersect (searchIntersect s) = searchIntersect s := by
  by_cases hA : searchObserverActive s = true
  · rw [searchIntersect_active s hA] at h ⊢
    rcases searchPageEffect_cases { s with page := s.page + 1 } with hcase | hcase
    · rw [hcase] at h ⊢
      constructor
      · rw [searchStartLoad_fetchLog]
      · exact searchIntersect_not_active _ (searchObserverActive_startLoad _ _)
    · rw [hcase] at h
      exact (h rfl).elim
  · rw [searchIntersect_not_active s (by simpa using hA)] at h
    exact (h rfl).elim

lemma mergeMovies_nodup (prev results : List Movie)
    (hp : (prev.map Movie.id).Nodup) (hn : (results.map Movie.id).Nodup) :
    ((mergeMovies prev results).map Movie.id).Nodup := by
  rw [mergeMovies, List.map_append, List.nodup_append]
  refine ⟨hp, hn.sublist (List.Sublist.map _ (List.filter_sublist results)), ?_⟩
  intro a ha hb
  rcases List.mem_map.mp ha with ⟨p, hp1, hp2⟩
  rcases List.mem_map.mp hb with ⟨m, hm1, hm2⟩
  rcases List.mem_filter.mp hm1 with ⟨_, hpred⟩
  simp only [Bool.not_eq_true', List.any_eq_false] at hpred
  exact hpred p hp1 (by simp [hp2.trans hm2.symm])

lemma foldl_merge_nodup (pages : List (List Movie)) (acc : List Movie)
    (hacc : (acc.map Movie.id).Nodup)
    (h : ∀ p ∈ pages, (p.map Movie.id).Nodup) :
    ((pages.foldl mergeMovies acc).map Movie.id).Nodup := by
  induction pages generalizing acc with
  | nil => simpa
  | cons pg rest ih =>
    simp only [List.foldl_cons]
    exact ih _ (mergeMovies_nodup _ _ hacc (h pg (List.mem_cons_self pg rest)))
      (fun p hp => h p (List.mem_cons_of_mem pg hp))

lemma homeResolveOk_fetchLog (i : Nat) (resp : TMDBPage) (s : HomeState) :
    (homeResolveOk i resp s).fetchLog = s.fetchLog := by
  unfold homeResolveOk
  by_cases hi : i < s.pending.length <;> simp [hi]

lemma homeResolveErr_fetchLog (i : Nat) (s : HomeState) :
    (homeResolveErr i s).fetchLog = s.fetchLog := by
  unfold homeResolveErr
  by_cases hi : i < s.pending.length <;> simp [hi]

lemma homeObserverActive_exhausted (s : HomeState) (t : Nat)
    (ht : s.totalPages = some t) (hp : t ≤ s.page) :
    homeObserverActive s = false := by
  have hd : (decide (s.page < s.totalPages.getD 0)) = false := by
    rw [ht]
    simp [Nat.not_lt.mpr hp]
  simp [homeObserverActive, homeSentinel, hd]

lemma searchStartLoad_totalPages (p : Nat) (s : SearchFeedState) :
    (searchStartLoad p s).totalPages = s.totalPages := by
  unfold searchStartLoad
  by_cases hp : p = 1 <;> simp [hp]

lemma searchResolveOk_fetchLog (i : Nat) (resp : TMDBPage) (s : SearchFeedState) :
    (searchResolveOk i resp s).fetchLog = s.fetchLog := by
  unfold searchResolveOk
  by_cases hi : i < s.pending.length <;> simp [hi]

lemma searchResolveErr_fetchLog (i : Nat) (s : SearchFeedState) :
    (searchResolveErr i s).fetchLog = s.fetchLog := by
  unfold searchResolveErr
  by_cases hi : i < s.pending.length <;> simp [hi]

lemma searchObserverActive_flags (s : SearchFeedState)
    (h : searchObserverActive s = true) :
    s.loadingMore = false ∧ s.loading = false ∧ s.error = none
      ∧ s.page < s.totalPages.getD 0 := by
  simp only [searchObserverActive, searchSentinel, Bool.and_eq_true, Bool.not_eq_true',
    decide_eq_true_eq, Option.isNone_iff_eq_none] at h
  refine ⟨?_, ?_, ?_, ?_⟩ <;> tauto

lemma searchObserverActive_exhausted (s : SearchFeedState) (t : Nat)
    (ht : s.totalPages = some t) (hp : t ≤ s.page) :
    searchObserverActive s = false := by
  have hd : (decide (s.page < s.totalPages.getD 0)) = false := by
    rw [ht]
    simp [Nat.not_lt.mpr hp]
  simp [searchObserverActive, searchSentinel, hd]

lemma searchChange_eq_pos (term : String) (s : SearchFeedState) (h : ¬ term = "") :
    searchChange term s
      = searchStartLoad 1 { s with search := term, movies := [], page := 1, totalPages := none, totalResults := none } := by
  unfold searchChange
  rw [if_neg h]

lemma searchChange_eq_neg (term : String) (s : SearchFeedState) (h : term = "") :
    searchChange term s = { s with search := term } := by
  unfold searchChange
  rw [if_pos h]

lemma search_fetch_bound_step (s : SearchFeedState) (e : SearchEvent) (t : Nat)
    (ht : s.totalPages = some t) :
    ∀ q ∈ (searchStep s e).fetchLog.drop s.fetchLog.length,
      q.2 ≤ t ∨ (q.2 = 1 ∧ (searchStep s e).totalPages = none) := by
  cases e with
  | change term =>
    show ∀ q ∈ (searchChange term s).fetchLog.drop s.fetchLog.length,
      q.2 ≤ t ∨ (q.2 = 1 ∧ (searchChange term s).totalPages = none)
    by_cases hterm : term = ""
    · rw [searchChange_eq_neg term s hterm]
      show ∀ q ∈ s.fetchLog.drop s.fetchLog.length, _
      rw [List.drop_length]
      intro q hq
      exact absurd hq (List.not_mem_nil q)
    · rw [searchChange_eq_pos term s hterm, searchStartLoad_fetchLog]
      show ∀ q ∈ (s.fetchLog ++ [(term, 1)]).drop s.fetchLog.length, _
      rw [List.drop_left]
      intro q hq
      rw [List.mem_singleton] at hq
      subst hq
      right
      refine ⟨rfl, ?_⟩
      rw [searchStartLoad_totalPages]
  | intersect =>
    show ∀ q ∈ (searchIntersect s).fetchLog.drop s.fetchLog.length, _
    by_cases hA : searchObserverActive s = true
    · obtain ⟨_, _, _, hlt⟩ := searchObserverActive_flags s hA
      rw [ht] at hlt
      simp only [Option.getD_some] at hlt
      rw [searchIntersect_active s hA]
      rcases searchPageEffect_cases { s with page := s.page + 1 } with hcase | hcase
      · rw [hcase, searchStartLoad_fetchLog]
        show ∀ q ∈ (s.fetchLog ++ [(s.search, s.page + 1)]).drop s.fetchLog.length, _
        rw [List.drop_left]
        intro q hq
        rw [List.mem_singleton] at hq
        subst hq
        left
        show s.page + 1 ≤ t
        omega
      · rw [hcase]
        show ∀ q ∈ s.fetchLog.drop s.fetchLog.length, _
        rw [List.drop_length]
        intro q hq
        exact absurd hq (List.not_mem_nil q)
    · rw [searchIntersect_not_active s (by simpa using hA), List.drop_length]
      intro q hq
      exact absurd hq (List.not_mem_nil q)
  | resolveOk i resp =>
    show ∀ q ∈ (searchResolveOk i resp s).fetchLog.drop s.fetchLog.length, _
    rw [searchResolveOk_fetchLog, List.drop_length]
    intro q hq
    exact absurd hq (List.not_mem_nil q)
  | resolveErr i =>
    show ∀ q ∈ (searchResolveErr i s).fetchLog.drop s.fetchLog.length, _
    rw [searchResolveErr_fetchLog, List.drop_length]
    intro q hq
    exact absurd hq (List.not_mem_nil q)

lemma search_change_fetch (s : SearchFeedState) (term : String) :
    (searchChange term s).fetchLog = s.fetchLog
    ∨ ((searchChange term s).fetchLog = s.fetchLog ++ [(term, 1)]
        ∧ (searchChange term s).totalPages = none) := by
  by_cases hterm : term = ""
  · left
    rw [searchChange_eq_neg term s hterm]
  · right
    rw [searchChange_eq_pos term s hterm, searchStartLoad_fetchLog,
      searchStartLoad_totalPages]
    exact ⟨rfl, rfl⟩

lemma search_exhausted_noop (s : SearchFeedState) (t : Nat)
    (ht : s.totalPages = some t) (hp : t ≤ s.page) :
    ∀ n : Nat, (List.replicate n SearchEvent.intersect).foldl searchStep s = s := by
  have hstep : searchStep s SearchEvent.intersect = s :=
    searchIntersect_not_active s (searchObserverActive_exhausted s t ht hp)
  intro n
  induction n with
  | zero => rfl
  | succ m ih => rw [List.replicate_succ, List.foldl_cons, hstep, ih]

/-- C1 (divergence).  The search feed does not tag requests with a
generation: with a request for term "old" outstanding, changing the term
to "new" resets the feed and issues a request for "new", but the pending
"old" request (issued first, see fetchLog) is neither cancelled nor
recognized as stale, and when it resolves its result (the movie with id
99) is merged into the items of the new feed, ending up listed even ahead
of the result fetched for "new". -/
theorem stale_response_merged_into_new_feed :
    (searchRun [SearchEvent.change "old", SearchEvent.change "new",
        SearchEvent.resolveOk 0 ⟨[⟨99, "Stale"⟩], some 1, some 1⟩,
        SearchEvent.resolveOk 0 ⟨[⟨1, "Fresh"⟩], some 1, some 1⟩]).search = "new"
    ∧ (searchRun [SearchEvent.change "old", SearchEvent.change "new",
        SearchEvent.resolveOk 0 ⟨[⟨99, "Stale"⟩], some 1, some 1⟩,
        SearchEvent.resolveOk 0 ⟨[⟨1, "Fresh"⟩], some 1, some 1⟩]).fetchLog
        = [("old", 1), ("new", 1)]
    ∧ (searchRun [SearchEvent.change "old", SearchEvent.change "new",
        SearchEvent.resolveOk 0 ⟨[⟨99, "Stale"⟩], some 1, some 1⟩,
        SearchEvent.resolveOk 0 ⟨[⟨1, "Fresh"⟩], some 1, some 1⟩]).movies.map Movie.id
        = [99, 1]
    ∧ 99 ∈ (searchRun [SearchEvent.change "old", SearchEvent.change "new",
        SearchEvent.resolveOk 0 ⟨[⟨99, "Stale"⟩], some 1, some 1⟩,
        SearchEvent.resolveOk 0 ⟨[⟨1, "Fresh"⟩], some 1, some 1⟩]).movies.map Movie.id :=
  ⟨by decide, by decide, by decide, by decide⟩

/-- C3 is false as stated: the merge filters incoming elements only
against the already-loaded items, not against each other, so a single
successful page response carrying two elements with the same id 5 is
merged into the empty feed as two elements with identifier 5. -/
theorem items_dup_within_single_page :
    ((homeRun [HomeEvent.resolveOk 0 ⟨[⟨5, "A"⟩, ⟨5, "B"⟩], some 3, none⟩]).movies.map
        Movie.id = [5, 5])
    ∧ ¬ ((homeRun [HomeEvent.resolveOk 0 ⟨[⟨5, "A"⟩, ⟨5, "B"⟩], some 3,
        none⟩]).movies.map Movie.id).Nodup :=
  ⟨by decide, by decide⟩

/-- C3, amended: provided every individual page response carries
pairwise-distinct identifiers, merging any sequence of responses into an
initially empty feed yields an items sequence with no duplicate
identifier; an identifier shared by two pages appears exactly once, at
the position of its first arrival, as in the scenario where page one
brings ids 1 and 2 and page two brings ids 2 and 3. -/
theorem merge_dedup_across_pages :
    (∀ pages : List (List Movie),
        (∀ p ∈ pages, (p.map Movie.id).Nodup) →
        ((pages.foldl mergeMovies []).map Movie.id).Nodup)
    ∧ mergeMovies (mergeMovies [] [⟨1, "M1"⟩, ⟨2, "M2"⟩]) [⟨2, "M2b"⟩, ⟨3, "M3"⟩]
        = [⟨1, "M1"⟩, ⟨2, "M2"⟩, ⟨3, "M3"⟩] :=
  ⟨fun pages h => foldl_merge_nodup pages [] (by simp) h, by decide⟩

/-- Witness for C3 (amended) at a concrete input: two pages sharing id 2,
each without internal duplicates, merge to a duplicate-free feed. -/
theorem merge_dedup_across_pages_witness :
    (([[⟨1, "M1"⟩, ⟨2, "M2"⟩], [⟨2, "M2b"⟩, ⟨3, "M3"⟩]].foldl mergeMovies
        []).map Movie.id).Nodup :=
  merge_dedup_across_pages.1 [[⟨1, "M1"⟩, ⟨2, "M2"⟩], [⟨2, "M2b"⟩, ⟨3, "M3"⟩]]
    (by decide)

/-- C5 is false as stated for the search feed: at most one request in
flight does not hold at every moment, because a term change while a
request is outstanding issues the new first-page request without the old
one having resolved, leaving two requests pending at once. -/
theorem search_feed_two_inflight :
    (searchRun [SearchEvent.change "old", SearchEvent.change "new"]).pending
        = [("old", 1), ("new", 1)]
    ∧ 2 ≤ (searchRun [SearchEvent.change "old",
        SearchEvent.change "new"]).pending.length :=
  ⟨by decide, by decide⟩

/-- C5, amended: on the popular feed, whose term never changes, every
reachable state has at most one request in flight; and on both feeds a
second intersection trigger arriving before the request issued by a first
trigger has resolved is dropped: whenever a trigger issues a request (the
fetch log grows, by exactly the next page number), the state it leaves
behind ignores further triggers entirely. -/
theorem advance_trigger_drop :
    (∀ tr : List HomeEvent, (homeRun tr).pending.length ≤ 1)
    ∧ (∀ s : HomeState, (homeIntersect s).fetchLog ≠ s.fetchLog →
        (homeIntersect s).fetchLog = s.fetchLog ++ [s.page + 1]
        ∧ homeIntersect (homeIntersect s) = homeIntersect s)
    ∧ (∀ s : SearchFeedState, (searchIntersect s).fetchLog ≠ s.fetchLog →
        (searchIntersect s).fetchLog = s.fetchLog ++ [(s.search, s.page + 1)]
        ∧ searchIntersect (searchIntersect s) = searchIntersect s) :=
  ⟨fun tr => (homeInv_run tr).1, home_drop, search_drop⟩

/-- Witness for C5 (amended) at concrete inputs: the post-mount popular
feed has one pending request, and from the ready state reached by
resolving page one (three pages total) a trigger fires a request and a
second trigger is dropped. -/
theorem advance_trigger_drop_witness :
    (homeRun []).pending.length ≤ 1
    ∧ ((homeIntersect (homeRun [HomeEvent.resolveOk 0 ⟨[⟨1, "A"⟩], some 3,
          none⟩])).fetchLog
        = (homeRun [HomeEvent.resolveOk 0 ⟨[⟨1, "A"⟩], some 3, none⟩]).fetchLog
          ++ [(homeRun [HomeEvent.resolveOk 0 ⟨[⟨1, "A"⟩], some 3, none⟩]).page + 1]
        ∧ homeIntersect (homeIntersect (homeRun [HomeEvent.resolveOk 0 ⟨[⟨1, "A"⟩],
            some 3, none⟩]))
          = homeIntersect (homeRun [HomeEvent.resolveOk 0 ⟨[⟨1, "A"⟩], some 3, none⟩])) :=
  ⟨advance_trigger_drop.1 [],
   advance_trigger_drop.2.1 (homeRun [HomeEvent.resolveOk 0 ⟨[⟨1, "A"⟩], some 3, none⟩])
     (by decide)⟩

/-- C6, on both feeds.  Popular feed: whenever totalPages is known to be
t, no step appends a fetch for a page above t to the fetch log (the
observer is detached at the boundary and a trigger below it requests
page + 1 <= t), and once page >= t every intersection trigger, iterated
any number of times, leaves the state (in particular items, page and
totalPages) exactly unchanged.  Search feed: from a state whose
totalPages is known to be t, every fetch a step issues either respects
the bound (an intersection trigger requests page + 1 <= t) or is the
first-page fetch of a term change, which restarts the feed and clears
totalPages to unknown before calling loadSearchResults(1), so at the
moment that fetch is issued no totalPages is known for the feed it
belongs to; a term change issues nothing else, and once page >= t the
intersection trigger, iterated any number of times, leaves the search
state exactly unchanged as well. -/
theorem totalPages_bound_and_advance_noop :
    (∀ (s : HomeState) (e : HomeEvent) (t : Nat), s.totalPages = some t →
        ∀ q ∈ (homeStep s e).fetchLog.drop s.fetchLog.length, q ≤ t)
    ∧ (∀ (s : HomeState) (t : Nat), s.totalPages = some t → t ≤ s.page →
        ∀ n : Nat, (List.replicate n HomeEvent.intersect).foldl homeStep s = s)
    ∧ (∀ (s : SearchFeedState) (e : SearchEvent) (t : Nat), s.totalPages = some t →
        ∀ q ∈ (searchStep s e).fetchLog.drop s.fetchLog.length,
          q.2 ≤ t ∨ (q.2 = 1 ∧ (searchStep s e).totalPages = none))
    ∧ (∀ (s : SearchFeedState) (term : String),
        (searchChange term s).fetchLog = s.fetchLog
        ∨ ((searchChange term s).fetchLog = s.fetchLog ++ [(term, 1)]
            ∧ (searchChange term s).totalPages = none))
    ∧ (∀ (s : SearchFeedState) (t : Nat), s.totalPages = some t → t ≤ s.page →
        ∀ n : Nat, (List.replicate n SearchEvent.intersect).foldl searchStep s = s) := by
  refine ⟨?_, ?_, search_fetch_bound_step, search_change_fetch, search_exhausted_noop⟩
  · intro s e t ht
    cases e with
    | intersect =>
      show ∀ q ∈ (homeIntersect s).fetchLog.drop s.fetchLog.length, q ≤ t
      by_cases hA : homeObserverActive s = true
      · obtain ⟨_, _, _, hlt⟩ := homeObserverActive_flags s hA
        rw [ht] at hlt
        simp only [Option.getD_some] at hlt
        rw [homeIntersect_active s hA]
        rcases homePageEffect_cases { s with page := s.page + 1 } with hcase | hcase
        · rw [hcase, homeStartLoad_fetchLog]
          show ∀ q ∈ (s.fetchLog ++ [s.page + 1]).drop s.fetchLog.length, q ≤ t
          rw [List.drop_left]
          intro q hq
          rw [List.mem_singleton] at hq
          omega
        · rw [hcase]
          show ∀ q ∈ s.fetchLog.drop s.fetchLog.length, q ≤ t
          rw [List.drop_length]
          intro q hq
          exact absurd hq (List.not_mem_nil q)
      · rw [homeIntersect_not_active s (by simpa using hA), List.drop_length]
        intro q hq
        exact absurd hq (List.not_mem_nil q)
    | resolveOk i resp =>
      show ∀ q ∈ (homeResolveOk i resp s).fetchLog.drop s.fetchLog.length, q ≤ t
      rw [homeResolveOk_fetchLog, List.drop_length]
      intro q hq
      exact absurd hq (List.not_mem_nil q)
    | resolveErr i =>
      show ∀ q ∈ (homeResolveErr i s).fetchLog.drop s.fetchLog.length, q ≤ t
      rw [homeResolveErr_fetchLog, List.drop_length]
      intro q hq
      exact absurd hq (List.not_mem_nil q)
  · intro s t ht hp n
    have hstep : homeStep s HomeEvent.intersect = s :=
      homeIntersect_not_active s (homeObserverActive_exhausted s t ht hp)
    induction n with
    | zero => rfl
    | succ m ih => rw [List.replicate_succ, List.foldl_cons, hstep, ih]

/-- Witness for C6 at concrete inputs: after resolving page one of a
one-page popular feed, no step fetches beyond page one and three further
triggers leave the state unchanged; on a search feed for "batman" with
two known pages an intersection step only issues bounded or reset-page
fetches, a term change to "drama" issues exactly the fresh first-page
fetch, and a one-page search feed ignores two further triggers. -/
theorem totalPages_bound_and_advance_noop_witness :
    (∀ q ∈ (homeStep (homeRun [HomeEvent.resolveOk 0 ⟨[⟨1, "A"⟩], some 1, none⟩])
        HomeEvent.intersect).fetchLog.drop
        (homeRun [HomeEvent.resolveOk 0 ⟨[⟨1, "A"⟩], some 1, none⟩]).fetchLog.length,
      q ≤ 1)
    ∧ (List.replicate 3 HomeEvent.intersect).foldl homeStep
        (homeRun [HomeEvent.resolveOk 0 ⟨[⟨1, "A"⟩], some 1, none⟩])
        = homeRun [HomeEvent.resolveOk 0 ⟨[⟨1, "A"⟩], some 1, none⟩]
    ∧ (∀ q ∈ (searchStep (searchRun [SearchEvent.change "batman",
          SearchEvent.resolveOk 0 ⟨[⟨1, "A"⟩], some 2, some 2⟩])
          SearchEvent.intersect).fetchLog.drop
          (searchRun [SearchEvent.change "batman",
            SearchEvent.resolveOk 0 ⟨[⟨1, "A"⟩], some 2, some 2⟩]).fetchLog.length,
        q.2 ≤ 2 ∨ (q.2 = 1
          ∧ (searchStep (searchRun [SearchEvent.change "batman",
              SearchEvent.resolveOk 0 ⟨[⟨1, "A"⟩], some 2, some 2⟩])
              SearchEvent.intersect).totalPages = none))
    ∧ ((searchChange "drama" (searchRun [SearchEvent.change "batman",
          SearchEvent.resolveOk 0 ⟨[⟨1, "A"⟩], some 2, some 2⟩])).fetchLog
          = (searchRun [SearchEvent.change "batman",
              SearchEvent.resolveOk 0 ⟨[⟨1, "A"⟩], some 2, some 2⟩]).fetchLog
        ∨ ((searchChange "drama" (searchRun [SearchEvent.change "batman",
            SearchEvent.resolveOk 0 ⟨[⟨1, "A"⟩], some 2, some 2⟩])).fetchLog
            = (searchRun [SearchEvent.change "batman",
                SearchEvent.resolveOk 0 ⟨[⟨1, "A"⟩], some 2, some 2⟩]).fetchLog
              ++ [("drama", 1)]
          ∧ (searchChange "drama" (searchRun [SearchEvent.change "batman",
              SearchEvent.resolveOk 0 ⟨[⟨1, "A"⟩], some 2, some 2⟩])).totalPages
              = none))
    ∧ (List.replicate 2 SearchEvent.intersect).foldl searchStep
        (searchRun [SearchEvent.change "batman",
          SearchEvent.resolveOk 0 ⟨[⟨1, "A"⟩], some 1, some 1⟩])
        = searchRun [SearchEvent.change "batman",
            SearchEvent.resolveOk 0 ⟨[⟨1, "A"⟩], some 1, some 1⟩] :=
  ⟨totalPages_bound_and_advance_noop.1
      (homeRun [HomeEvent.resolveOk 0 ⟨[⟨1, "A"⟩], some 1, none⟩])
      HomeEvent.intersect 1 (by decide),
   totalPages_bound_and_advance_noop.2.1
      (homeRun [HomeEvent.resolveOk 0 ⟨[⟨1, "A"⟩], some 1, none⟩])
      1 (by decide) (by decide) 3,
   totalPages_bound_and_advance_noop.2.2.1
      (searchRun [SearchEvent.change "batman",
        SearchEvent.resolveOk 0 ⟨[⟨1, "A"⟩], some 2, some 2⟩])
      SearchEvent.intersect 2 (by decide),
   totalPages_bound_and_advance_noop.2.2.2.1
      (searchRun [SearchEvent.change "batman",
        SearchEvent.resolveOk 0 ⟨[⟨1, "A"⟩], some 2, some 2⟩])
      "drama",
   totalPages_bound_and_advance_noop.2.2.2.2
      (searchRun [SearchEvent.change "batman",
        SearchEvent.resolveOk 0 ⟨[⟨1, "A"⟩], some 1, some 1⟩])
      1 (by decide) (by decide) 2⟩

/-- C8.  A failing resolution of any in-flight request (transport failure
and non-2xx status both reject the promise and land in the same catch) on
either feed leaves items, page and the page bounds exactly as they were,
sets the error message the view renders, and clears both loading flags. -/
theorem fetch_error_preserves_feed :
    (∀ (s : HomeState) (i : Nat), i < s.pending.length →
        (homeResolveErr i s).movies = s.movies
        ∧ (homeResolveErr i s).page = s.page
        ∧ (homeResolveErr i s).totalPages = s.totalPages
        ∧ (homeResolveErr i s).error
            = some "Nao foi possivel carregar os filmes populares."
        ∧ (homeResolveErr i s).loading = false
        ∧ (homeResolveErr i s).loadingMore = false)
    ∧ (∀ (s : SearchFeedState) (i : Nat), i < s.pending.length →
        (searchResolveErr i s).movies = s.movies
        ∧ (searchResolveErr i s).page = s.page
        ∧ (searchResolveErr i s).totalPages = s.totalPages
        ∧ (searchResolveErr i s).totalResults = s.totalResults
        ∧ (searchResolveErr i s).error
            = some "Nao foi possivel carregar os resultados da pesquisa."
        ∧ (searchResolveErr i s).loading = false
        ∧ (searchResolveErr i s).loadingMore = false) := by
  constructor
  · intro s i hi
    unfold homeResolveErr
    simp [hi]
  · intro s i hi
    unfold searchResolveErr
    simp [hi]

/-- Witness for C8 at concrete inputs: failing the initial popular
request and the first search request for the term "batman". -/
theorem fetch_error_preserves_feed_witness :
    ((homeResolveErr 0 (homeRun [])).movies = (homeRun []).movies
      ∧ (homeResolveErr 0 (homeRun [])).page = (homeRun []).page
      ∧ (homeResolveErr 0 (homeRun [])).totalPages = (homeRun []).totalPages
      ∧ (homeResolveErr 0 (homeRun [])).error
          = some "Nao foi possivel carregar os filmes populares."
      ∧ (homeResolveErr 0 (homeRun [])).loading = false
      ∧ (homeResolveErr 0 (homeRun [])).loadingMore = false)
    ∧ (searchResolveErr 0 (searchRun [SearchEvent.change "batman"])).error
        = some "Nao foi possivel carregar os resultados da pesquisa." :=
  ⟨fetch_error_preserves_feed.1 (homeRun []) 0 (by decide),
   (fetch_error_preserves_feed.2 (searchRun [SearchEvent.change "batman"]) 0
      (by decide)).2.2.2.2.1⟩
